import Mathlib

/-!
Shallow embedding of the role-common Raft core of `raftlog`
(`src/node_state/common/mod.rs`).  The `Common` container, message triage
(`handle_message`), role transitions, snapshot installation, the deferred
message slot and the commit-consumption hooks are translated from the
source.  Collaborator types that live outside this file in the repository
(`LogHistory`, `Ballot`, `Message`, the RPC builders, the transport) are
modelled from the specification, as indicated on each definition.
-/

namespace Raftlog

/-- Modelled from the spec: a log position, a pair of the term of the
preceding entry and an index. -/
structure LogPosition where
  prev_term : Nat
  index : Nat
deriving DecidableEq, Repr

/-- Modelled from the spec: the pair (term, voted_for) that a node persists. -/
structure Ballot where
  term : Nat
  voted_for : Nat
deriving DecidableEq, Repr

/-- Role of a node: Leader, Candidate or Follower. -/
inductive Role where
  | follower
  | candidate
  | leader
deriving DecidableEq, Repr

/-- Modelled from the spec: node identity together with its current role
and ballot (the `Node` type of the repository). -/
structure Node where
  id : Nat
  role : Role
  ballot : Ballot
deriving DecidableEq, Repr

/-- Modelled from the spec: the active cluster configuration, carrying its
member set. -/
structure ClusterConfig where
  members : List Nat
deriving DecidableEq, Repr

/-- Modelled from the spec: membership test used by the unknown-sender
guard (`sender ∉ current configuration members`). -/
def is_known_node (config : ClusterConfig) (node : Nat) : Bool :=
  config.members.contains node

/-- Modelled from the spec: a log entry.  The variants needed by the core
are commands, no-ops, configuration entries and `Retire{term, successor}`. -/
inductive LogEntry where
  | noop (term : Nat)
  | command (term : Nat) (data : List Nat)
  | config (term : Nat) (members : List Nat)
  | retire (term : Nat) (successor : Nat)
deriving DecidableEq, Repr

/-- The term recorded in a log entry. -/
def LogEntry.term : LogEntry → Nat
  | LogEntry.noop t => t
  | LogEntry.command t _ => t
  | LogEntry.config t _ => t
  | LogEntry.retire t _ => t

/-- Modelled from the spec: a contiguous range of entries with a starting
position (glossary: "log suffix"). -/
structure LogSuffix where
  head : LogPosition
  entries : List LogEntry
deriving DecidableEq, Repr

/-- Modelled from the spec: the position one past the last entry of a
suffix. -/
def LogSuffix.tail (s : LogSuffix) : LogPosition :=
  { prev_term :=
      match s.entries.getLast? with
      | some e => e.term
      | none => s.head.prev_term
    index := s.head.index + s.entries.length }

/-- Modelled from the spec: a durable snapshot covering log indices
strictly below its tail (the repository's `LogPrefix` type). -/
structure Snapshot where
  tail : LogPosition
  config : ClusterConfig
  snapshot : List Nat
deriving DecidableEq, Repr

/-- Modelled from the spec: the ordered log abstraction with four monotone
positions `head ≤ consumed_tail ≤ committed_tail ≤ tail` plus the active
cluster configuration. -/
structure LogHistory where
  head : LogPosition
  consumed_tail : LogPosition
  committed_tail : LogPosition
  tail : LogPosition
  config : ClusterConfig
deriving DecidableEq, Repr

/-- Clamp a position forward so that it is not below `new_head`. -/
def clampPosition (p new_head : LogPosition) : LogPosition :=
  if p.index < new_head.index then new_head else p

/-- Modelled from the spec: `record_snapshot_installed(new_head, config)`
moves `head` forward to `new_head`, replaces the configuration, and clamps
the other positions so that the ordering invariant continues to hold. -/
def record_snapshot_installed (h : LogHistory) (new_head : LogPosition)
    (config : ClusterConfig) : LogHistory :=
  { head := new_head
    consumed_tail := clampPosition h.consumed_tail new_head
    committed_tail := clampPosition h.committed_tail new_head
    tail := clampPosition h.tail new_head
    config := config }

/-- Modelled from the spec: recording a snapshot load resets the log to
start at the snapshot's tail, clamping the tracked positions forward. -/
def record_snapshot_loaded (h : LogHistory) (snap : Snapshot) : LogHistory :=
  { head := snap.tail
    consumed_tail := clampPosition h.consumed_tail snap.tail
    committed_tail := clampPosition h.committed_tail snap.tail
    tail := clampPosition h.tail snap.tail
    config := snap.config }

/-- Modelled from the spec: advance `consumed_tail` to the given index. -/
def record_consumed (h : LogHistory) (idx : Nat) : LogHistory :=
  { h with consumed_tail := { h.consumed_tail with index := idx } }

/-- Modelled from the spec: the Raft log-up-to-date order on positions
(compare last term, then index). -/
def is_newer_or_equal_than (a b : LogPosition) : Prop :=
  b.prev_term < a.prev_term ∨ (a.prev_term = b.prev_term ∧ b.index ≤ a.index)

instance (a b : LogPosition) : Decidable (is_newer_or_equal_than a b) :=
  inferInstanceAs (Decidable (b.prev_term < a.prev_term ∨
    (a.prev_term = b.prev_term ∧ b.index ≤ a.index)))

/-- Modelled from the spec: message header fields `{sender, term, seq_no}`. -/
structure MessageHeader where
  sender : Nat
  term : Nat
  seq_no : Nat
deriving DecidableEq, Repr

/-- Modelled from the spec: the inbound message kinds dispatched by the
triage logic. -/
inductive Message where
  | requestVoteCall (header : MessageHeader) (log_tail : LogPosition)
  | requestVoteReply (header : MessageHeader) (voted : Bool)
  | appendEntriesCall (header : MessageHeader) (suffix : LogSuffix)
  | appendEntriesReply (header : MessageHeader) (log_tail : LogPosition)
deriving DecidableEq, Repr

/-- The header of a message. -/
def Message.header : Message → MessageHeader
  | Message.requestVoteCall h _ => h
  | Message.requestVoteReply h _ => h
  | Message.appendEntriesCall h _ => h
  | Message.appendEntriesReply h _ => h

/-- Host-visible events produced by the core. -/
inductive Event where
  | termChanged (new_ballot : Ballot)
  | roleChanged (new_role : Role)
  | committed (index : Nat) (entry : LogEntry)
  | snapshotLoaded (new_head : LogPosition) (snapshot : List Nat)
  | snapshotInstalled (new_head : LogPosition)
deriving DecidableEq, Repr

/-- Error kinds surfaced by the core. -/
inductive ErrorKind where
  | inconsistentState
  | busy
deriving DecidableEq, Repr

/-- Summary `{tail, config}` of an in-flight snapshot-install task. -/
structure SnapshotSummary where
  tail : LogPosition
  config : ClusterConfig
deriving DecidableEq, Repr

/-- Modelled from the spec: the observable outgoing actions of the RPC
builders and the snapshot writer (§4.8 of the spec). -/
inductive IoAction where
  | replyRequestVote (dest : Nat) (seq_no : Nat) (voted : Bool)
  | broadcastAppendEntries (suffix : LogSuffix)
  | saveSnapshot (snap : Snapshot)
deriving DecidableEq, Repr

/-- The role-common state container (`Common` in the source).  The I/O
backend is modelled by the `inbox` queue (inbound transport) and the
`sent` trace (outgoing actions); the snapshot-install future is modelled
by its occupied slot carrying the precomputed summary. -/
structure Common where
  local_node : Node
  history : LogHistory
  events : List Event
  unread_message : Option Message
  seq_no : Nat
  inbox : List Message
  install_task : Option SnapshotSummary
  sent : List IoAction
deriving DecidableEq, Repr

/-- `set_ballot`: no-op when unchanged, otherwise update the ballot and
enqueue exactly one `TermChanged{new_ballot}` event. -/
def set_ballot (c : Common) (new_ballot : Ballot) : Common :=
  if c.local_node.ballot ≠ new_ballot then
    { c with
      local_node := { c.local_node with ballot := new_ballot }
      events := c.events ++ [Event.termChanged new_ballot] }
  else c

/-- `set_role`: no-op when unchanged, otherwise update the role and
enqueue exactly one `RoleChanged{new_role}` event. -/
def set_role (c : Common) (new_role : Role) : Common :=
  if c.local_node.role ≠ new_role then
    { c with
      local_node := { c.local_node with role := new_role }
      events := c.events ++ [Event.roleChanged new_role] }
  else c

/-- `transit_to_leader`: set role Leader, ballot untouched. -/
def transit_to_leader (c : Common) : Common × Role :=
  (set_role c Role.leader, Role.leader)

/-- `transit_to_candidate`: ballot becomes `{term+1, voted_for=self}`,
role becomes Candidate. -/
def transit_to_candidate (c : Common) : Common × Role :=
  let new_ballot : Ballot :=
    { term := c.local_node.ballot.term + 1, voted_for := c.local_node.id }
  let c1 := set_ballot c new_ballot
  (set_role c1 Role.candidate, Role.candidate)

/-- `transit_to_follower(followee)`: ballot becomes
`{current term, voted_for=followee}`, role becomes Follower. -/
def transit_to_follower (c : Common) (followee : Nat) : Common × Role :=
  let new_ballot : Ballot :=
    { term := c.local_node.ballot.term, voted_for := followee }
  let c1 := set_ballot c new_ballot
  (set_role c1 Role.follower, Role.follower)

/-- Modelled from the spec: `rpc_callee(header).reply_request_vote(voted)`
sends a reply addressed to `header.sender` at `header.seq_no`. -/
def reply_request_vote (c : Common) (caller : MessageHeader) (voted : Bool) :
    Common :=
  { c with sent := c.sent ++ [IoAction.replyRequestVote caller.sender caller.seq_no voted] }

/-- Modelled from the spec: `rpc_caller().broadcast_append_entries(slice)`
broadcasts an AppendEntries RPC; the RPC caller is the sole mutator of
`seq_no`. -/
def broadcast_append_entries (c : Common) (slice : LogSuffix) : Common :=
  { c with
    sent := c.sent ++ [IoAction.broadcastAppendEntries slice]
    seq_no := c.seq_no + 1 }

/-- Result of `handle_message`: either fully consumed here (possibly with
a next role state) or deferred to the current role's handler. -/
inductive HandleMessageResult where
  | handled (next : Option Role)
  | unhandled (message : Message)
deriving DecidableEq, Repr

/-- The triage cascade of `handle_message` after the leader
unknown-sender guard: higher-term, lower-term and same-term dispatch. -/
def handle_message_after_guard (c : Common) (message : Message) :
    Common × HandleMessageResult :=
  if message.header.term > c.local_node.ballot.term then
    -- b) the sender's term is larger: a new election has started
    if c.local_node.ballot.voted_for ≠ c.local_node.id ∧
        c.local_node.ballot.voted_for ≠ message.header.sender then
      -- disruptive-server mitigation: keep following the current leader
      (c, HandleMessageResult.handled none)
    else
      let c1 :=
        { c with
          local_node :=
            { c.local_node with
              ballot := { c.local_node.ballot with term := message.header.term } } }
      match message with
      | Message.requestVoteCall h log_tail =>
          if is_newer_or_equal_than log_tail c1.history.tail then
            -- the candidate's log is up to date: support it
            let c2 :=
              { c1 with unread_message := some (Message.requestVoteCall h log_tail) }
            let r := transit_to_follower c2 h.sender
            (r.1, HandleMessageResult.handled (some r.2))
          else
            -- the local log is newer: nominate self
            let r := transit_to_candidate c1
            (r.1, HandleMessageResult.handled (some r.2))
      | Message.appendEntriesCall h s =>
          -- a new leader has been elected: follow it
          let c2 :=
            { c1 with unread_message := some (Message.appendEntriesCall h s) }
          let r := transit_to_follower c2 h.sender
          (r.1, HandleMessageResult.handled (some r.2))
      | _ =>
          if c1.local_node.role = Role.leader then
            let r := transit_to_candidate c1
            (r.1, HandleMessageResult.handled (some r.2))
          else
            let r := transit_to_follower c1 c1.local_node.id
            (r.1, HandleMessageResult.handled (some r.2))
  else if message.header.term < c.local_node.ballot.term then
    -- c) the local term is larger: signal staleness to the sender
    (reply_request_vote c message.header false, HandleMessageResult.handled none)
  else
    -- d) same term
    match message with
    | Message.requestVoteCall h log_tail =>
        if c.local_node.ballot.voted_for ≠ h.sender then
          (reply_request_vote c h false, HandleMessageResult.handled none)
        else
          (c, HandleMessageResult.unhandled (Message.requestVoteCall h log_tail))
    | Message.appendEntriesCall h s =>
        if c.local_node.ballot.voted_for ≠ h.sender then
          let c1 :=
            { c with unread_message := some (Message.appendEntriesCall h s) }
          let r := transit_to_follower c1 h.sender
          (r.1, HandleMessageResult.handled (some r.2))
        else
          (c, HandleMessageResult.unhandled (Message.appendEntriesCall h s))
    | m => (c, HandleMessageResult.unhandled m)

/-- `handle_message`: the leader unknown-sender guard followed by the
term-comparison cascade. -/
def handle_message (c : Common) (message : Message) :
    Common × HandleMessageResult :=
  if c.local_node.role = Role.leader ∧
      is_known_node c.history.config message.header.sender = false then
    -- a) a leader ignores messages from unknown nodes
    (c, HandleMessageResult.handled none)
  else
    handle_message_after_guard c message

/-- Modelled from the spec: the transport's non-blocking receive. -/
def io_try_recv_message (c : Common) : Common × Option Message :=
  match c.inbox with
  | [] => (c, none)
  | m :: rest => ({ c with inbox := rest }, some m)

/-- `try_recv_message`: the deferred message, if any, else the transport. -/
def try_recv_message (c : Common) : Common × Option Message :=
  match c.unread_message with
  | some message => ({ c with unread_message := none }, some message)
  | none => io_try_recv_message c

/-- `install_snapshot`: check `history.head.index ≤ snapshot.tail.index`
(else `InconsistentState`), check the single-flight slot (else `Busy`),
then start the durable write and occupy the slot. -/
def install_snapshot (c : Common) (snapshot : Snapshot) :
    Except ErrorKind Common :=
  if c.history.head.index ≤ snapshot.tail.index then
    if c.install_task.isSome then
      Except.error ErrorKind.busy
    else
      Except.ok
        { c with
          install_task := some { tail := snapshot.tail, config := snapshot.config }
          sent := c.sent ++ [IoAction.saveSnapshot snapshot] }
  else
    Except.error ErrorKind.inconsistentState

/-- `is_snapshot_installing`: whether the install slot is occupied. -/
def is_snapshot_installing (c : Common) : Bool :=
  c.install_task.isSome

/-- `handle_log_snapshot_loaded`: if the snapshot's tail index exceeds the
current `committed_tail.index`, first record the install, then record the
load, then enqueue `SnapshotLoaded`. -/
def handle_log_snapshot_loaded (c : Common) (snap : Snapshot) : Common :=
  let c1 :=
    if c.history.committed_tail.index < snap.tail.index then
      { c with history := record_snapshot_installed c.history snap.tail snap.config }
    else c
  let c2 := { c1 with history := record_snapshot_loaded c1.history snap }
  { c2 with events := c2.events ++ [Event.snapshotLoaded snap.tail snap.snapshot] }

/-- `handle_retirement`: on a committed `Retire{term, successor}` entry at
the local term, a leader broadcasts an empty AppendEntries, then the node
transitions to Candidate (if it is the successor) or to Follower of the
successor. -/
def handle_retirement (c : Common) (entry : LogEntry) : Common × Option Role :=
  match entry with
  | LogEntry.retire term successor =>
      if c.local_node.ballot.term ≠ term then
        (c, none)
      else
        let c1 :=
          if c.local_node.role = Role.leader then
            broadcast_append_entries c { head := c.history.tail, entries := [] }
          else c
        if c1.local_node.id = successor then
          let r := transit_to_candidate c1
          (r.1, some r.2)
        else
          let r := transit_to_follower c1 successor
          (r.1, some r.2)
  | _ => (c, none)

/-- One iteration of the commit-consumption loop: evaluate the retirement
hook for the entry, then enqueue its `Committed{index, entry}` event. -/
def commit_step (acc : Common × Option Role × Nat) (entry : LogEntry) :
    Common × Option Role × Nat :=
  let r := handle_retirement acc.1 entry
  ({ r.1 with events := r.1.events ++ [Event.committed acc.2.2 entry] },
    r.2, acc.2.2 + 1)

/-- `handle_committed`: drain a committed suffix, overwriting the pending
next state with each entry's retirement evaluation, then advance
`consumed_tail` when the suffix tail is not below the log head. -/
def handle_committed (c : Common) (suffix : LogSuffix) : Common × Option Role :=
  let new_tail := suffix.tail
  let r := suffix.entries.foldl commit_step (c, none, suffix.head.index)
  let c1 :=
    if new_tail.index ≥ r.1.history.head.index then
      { r.1 with history := record_consumed r.1.history new_tail.index }
    else r.1
  (c1, r.2.1)

/-! Projection lemmas for the state-mutating primitives. -/

@[simp]
theorem set_ballot_ballot (c : Common) (b : Ballot) :
    (set_ballot c b).local_node.ballot = b := by
  unfold set_ballot
  by_cases h : c.local_node.ballot = b <;> simp [h]

@[simp]
theorem set_ballot_role (c : Common) (b : Ballot) :
    (set_ballot c b).local_node.role = c.local_node.role := by
  unfold set_ballot
  by_cases h : c.local_node.ballot = b <;> simp [h]

@[simp]
theorem set_ballot_id (c : Common) (b : Ballot) :
    (set_ballot c b).local_node.id = c.local_node.id := by
  unfold set_ballot
  by_cases h : c.local_node.ballot = b <;> simp [h]

@[simp]
theorem set_ballot_unread (c : Common) (b : Ballot) :
    (set_ballot c b).unread_message = c.unread_message := by
  unfold set_ballot
  by_cases h : c.local_node.ballot = b <;> simp [h]

@[simp]
theorem set_ballot_history (c : Common) (b : Ballot) :
    (set_ballot c b).history = c.history := by
  unfold set_ballot
  by_cases h : c.local_node.ballot = b <;> simp [h]

@[simp]
theorem set_ballot_sent (c : Common) (b : Ballot) :
    (set_ballot c b).sent = c.sent := by
  unfold set_ballot
  by_cases h : c.local_node.ballot = b <;> simp [h]

@[simp]
theorem set_ballot_inbox (c : Common) (b : Ballot) :
    (set_ballot c b).inbox = c.inbox := by
  unfold set_ballot
  by_cases h : c.local_node.ballot = b <;> simp [h]

@[simp]
theorem set_ballot_install_task (c : Common) (b : Ballot) :
    (set_ballot c b).install_task = c.install_task := by
  unfold set_ballot
  by_cases h : c.local_node.ballot = b <;> simp [h]

theorem set_ballot_events (c : Common) (b : Ballot) :
    (set_ballot c b).events =
      c.events ++ (if c.local_node.ballot = b then [] else [Event.termChanged b]) := by
  unfold set_ballot
  by_cases h : c.local_node.ballot = b <;> simp [h]

@[simp]
theorem set_role_role (c : Common) (r : Role) :
    (set_role c r).local_node.role = r := by
  unfold set_role
  by_cases h : c.local_node.role = r <;> simp [h]

@[simp]
theorem set_role_ballot (c : Common) (r : Role) :
    (set_role c r).local_node.ballot = c.local_node.ballot := by
  unfold set_role
  by_cases h : c.local_node.role = r <;> simp [h]

@[simp]
theorem set_role_id (c : Common) (r : Role) :
    (set_role c r).local_node.id = c.local_node.id := by
  unfold set_role
  by_cases h : c.local_node.role = r <;> simp [h]

@[simp]
theorem set_role_unread (c : Common) (r : Role) :
    (set_role c r).unread_message = c.unread_message := by
  unfold set_role
  by_cases h : c.local_node.role = r <;> simp [h]

@[simp]
theorem set_role_history (c : Common) (r : Role) :
    (set_role c r).history = c.history := by
  unfold set_role
  by_cases h : c.local_node.role = r <;> simp [h]

@[simp]
theorem set_role_sent (c : Common) (r : Role) :
    (set_role c r).sent = c.sent := by
  unfold set_role
  by_cases h : c.local_node.role = r <;> simp [h]

@[simp]
theorem set_role_inbox (c : Common) (r : Role) :
    (set_role c r).inbox = c.inbox := by
  unfold set_role
  by_cases h : c.local_node.role = r <;> simp [h]

@[simp]
theorem set_role_install_task (c : Common) (r : Role) :
    (set_role c r).install_task = c.install_task := by
  unfold set_role
  by_cases h : c.local_node.role = r <;> simp [h]

theorem set_role_events (c : Common) (r : Role) :
    (set_role c r).events =
      c.events ++ (if c.local_node.role = r then [] else [Event.roleChanged r]) := by
  unfold set_role
  by_cases h : c.local_node.role = r <;> simp [h]

@[simp]
theorem transit_to_follower_snd (c : Common) (f : Nat) :
    (transit_to_follower c f).2 = Role.follower := rfl

@[simp]
theorem transit_to_follower_ballot (c : Common) (f : Nat) :
    (transit_to_follower c f).1.local_node.ballot =
      { term := c.local_node.ballot.term, voted_for := f } := by
  unfold transit_to_follower
  simp

@[simp]
theorem transit_to_follower_role (c : Common) (f : Nat) :
    (transit_to_follower c f).1.local_node.role = Role.follower := by
  unfold transit_to_follower
  simp

@[simp]
theorem transit_to_follower_unread (c : Common) (f : Nat) :
    (transit_to_follower c f).1.unread_message = c.unread_message := by
  unfold transit_to_follower
  simp

@[simp]
theorem transit_to_follower_sent (c : Common) (f : Nat) :
    (transit_to_follower c f).1.sent = c.sent := by
  unfold transit_to_follower
  simp

@[simp]
theorem transit_to_follower_history (c : Common) (f : Nat) :
    (transit_to_follower c f).1.history = c.history := by
  unfold transit_to_follower
  simp

@[simp]
theorem transit_to_follower_id (c : Common) (f : Nat) :
    (transit_to_follower c f).1.local_node.id = c.local_node.id := by
  unfold transit_to_follower
  simp

@[simp]
theorem transit_to_candidate_snd (c : Common) :
    (transit_to_candidate c).2 = Role.candidate := rfl

@[simp]
theorem transit_to_candidate_ballot (c : Common) :
    (transit_to_candidate c).1.local_node.ballot =
      { term := c.local_node.ballot.term + 1, voted_for := c.local_node.id } := by
  unfold transit_to_candidate
  simp

@[simp]
theorem transit_to_candidate_role (c : Common) :
    (transit_to_candidate c).1.local_node.role = Role.candidate := by
  unfold transit_to_candidate
  simp

@[simp]
theorem transit_to_candidate_unread (c : Common) :
    (transit_to_candidate c).1.unread_message = c.unread_message := by
  unfold transit_to_candidate
  simp

@[simp]
theorem transit_to_candidate_sent (c : Common) :
    (transit_to_candidate c).1.sent = c.sent := by
  unfold transit_to_candidate
  simp

@[simp]
theorem transit_to_candidate_history (c : Common) :
    (transit_to_candidate c).1.history = c.history := by
  unfold transit_to_candidate
  simp

@[simp]
theorem transit_to_candidate_id (c : Common) :
    (transit_to_candidate c).1.local_node.id = c.local_node.id := by
  unfold transit_to_candidate
  simp

/-! Concrete sample states used to exercise the theorems. -/

/-- A three-node cluster configuration. -/
def cfg3 : ClusterConfig := { members := [0, 1, 2] }

/-- A log position literal. -/
def mkPos (t i : Nat) : LogPosition := { prev_term := t, index := i }

/-- An initial log history. -/
def hist0 : LogHistory :=
  { head := mkPos 0 0
    consumed_tail := mkPos 0 0
    committed_tail := mkPos 0 0
    tail := mkPos 0 2
    config := cfg3 }

/-- A follower (node 0, term 3, following node 1). -/
def common0 : Common :=
  { local_node := { id := 0, role := Role.follower, ballot := { term := 3, voted_for := 1 } }
    history := hist0
    events := []
    unread_message := none
    seq_no := 0
    inbox := []
    install_task := none
    sent := [] }

/-- An empty snapshot at position (0, 0). -/
def snap0 : Snapshot := { tail := mkPos 0 0, config := cfg3, snapshot := [] }

/-- C9: calling `set_ballot b` twice in a row from a state whose ballot
differs from `b` enqueues exactly one `TermChanged` event, because the
second call is a no-op. -/
theorem set_ballot_twice_single_event (c : Common) (b : Ballot)
    (h : c.local_node.ballot ≠ b) :
    (set_ballot (set_ballot c b) b).events = c.events ++ [Event.termChanged b] := by
  rw [set_ballot_events, set_ballot_events]
  simp [h]

/-- Witness for C9 at a concrete state and ballot. -/
theorem set_ballot_twice_single_event_witness :
    common0.local_node.ballot ≠ { term := 5, voted_for := 0 } ∧
    (set_ballot (set_ballot common0 { term := 5, voted_for := 0 })
        { term := 5, voted_for := 0 }).events =
      common0.events ++ [Event.termChanged { term := 5, voted_for := 0 }] :=
  ⟨by decide, set_ballot_twice_single_event common0 _ (by decide)⟩

/-- C4: `install_snapshot` fails with `InconsistentState` when
`history.head.index > snapshot.tail.index`, fails with `Busy` when an
install task is already active, and otherwise returns `Ok`, occupies the
single-flight slot (`is_snapshot_installing` becomes true) and makes a
second call fail with `Busy`. -/
theorem install_snapshot_spec (c : Common) (s : Snapshot) :
    (c.history.head.index > s.tail.index →
      install_snapshot c s = Except.error ErrorKind.inconsistentState)
    ∧ (c.history.head.index ≤ s.tail.index → c.install_task.isSome →
      install_snapshot c s = Except.error ErrorKind.busy)
    ∧ (c.history.head.index ≤ s.tail.index → c.install_task = none →
      ∃ c2, install_snapshot c s = Except.ok c2
        ∧ is_snapshot_installing c2 = true
        ∧ install_snapshot c2 s = Except.error ErrorKind.busy) := by
  refine ⟨?_, ?_, ?_⟩
  · intro h
    have h2 : ¬ c.history.head.index ≤ s.tail.index := by omega
    simp [install_snapshot, h2]
  · intro h1 h2
    simp [install_snapshot, h1, h2]
  · intro h1 h2
    refine ⟨{ c with
        install_task := some { tail := s.tail, config := s.config }
        sent := c.sent ++ [IoAction.saveSnapshot s] }, ?_, ?_, ?_⟩
    · simp [install_snapshot, h1, h2]
    · simp [is_snapshot_installing]
    · simp [install_snapshot, h1, h2]

/-- Witness for C4: the successful-install branch at a concrete state. -/
theorem install_snapshot_spec_witness :
    common0.history.head.index ≤ snap0.tail.index ∧
    ∃ c2, install_snapshot common0 snap0 = Except.ok c2
      ∧ is_snapshot_installing c2 = true
      ∧ install_snapshot c2 snap0 = Except.error ErrorKind.busy :=
  ⟨by decide, (install_snapshot_spec common0 snap0).2.2 (by decide) rfl⟩

/-- C6: when `unread_message` holds a deferred message, `try_recv_message`
returns exactly that message, clears the slot and leaves the transport
untouched; when the slot is empty it returns the transport's result. -/
theorem try_recv_message_spec (c : Common) :
    (∀ m, c.unread_message = some m →
      try_recv_message c = ({ c with unread_message := none }, some m))
    ∧ (c.unread_message = none →
      try_recv_message c = io_try_recv_message c) := by
  constructor
  · intro m h
    simp [try_recv_message, h]
  · intro h
    simp [try_recv_message, h]

/-- Witness for C6 at a concrete deferred message. -/
theorem try_recv_message_spec_witness :
    ({ common0 with
        unread_message := some (Message.requestVoteReply
          { sender := 1, term := 3, seq_no := 0 } true) } : Common).unread_message =
      some (Message.requestVoteReply { sender := 1, term := 3, seq_no := 0 } true) ∧
    try_recv_message
        { common0 with
          unread_message := some (Message.requestVoteReply
            { sender := 1, term := 3, seq_no := 0 } true) } =
      ({ common0 with unread_message := none }, some (Message.requestVoteReply
        { sender := 1, term := 3, seq_no := 0 } true)) :=
  ⟨rfl,
    (try_recv_message_spec
      { common0 with
        unread_message := some (Message.requestVoteReply
          { sender := 1, term := 3, seq_no := 0 } true) }).1 _ rfl⟩

/-- C7: `handle_log_snapshot_loaded` first records the snapshot install
when the snapshot's tail index strictly exceeds `committed_tail.index`,
then records the load, then enqueues a `SnapshotLoaded` event carrying
`new_head = prefix.tail` and the prefix's snapshot; below or at the
committed tail, the install step is skipped. -/
theorem handle_log_snapshot_loaded_spec (c : Common) (p : Snapshot) :
    (c.history.committed_tail.index < p.tail.index →
      handle_log_snapshot_loaded c p =
        { c with
          history := record_snapshot_loaded
            (record_snapshot_installed c.history p.tail p.config) p
          events := c.events ++ [Event.snapshotLoaded p.tail p.snapshot] })
    ∧ (¬ c.history.committed_tail.index < p.tail.index →
      handle_log_snapshot_loaded c p =
        { c with
          history := record_snapshot_loaded c.history p
          events := c.events ++ [Event.snapshotLoaded p.tail p.snapshot] }) := by
  constructor <;> intro h <;> simp [handle_log_snapshot_loaded, h]

/-- Witness for C7: the install-then-load branch at a concrete state. -/
theorem handle_log_snapshot_loaded_spec_witness :
    common0.history.committed_tail.index <
      ({ tail := mkPos 0 1, config := cfg3, snapshot := [7] } : Snapshot).tail.index ∧
    handle_log_snapshot_loaded common0
        { tail := mkPos 0 1, config := cfg3, snapshot := [7] } =
      { common0 with
        history := record_snapshot_loaded
          (record_snapshot_installed common0.history (mkPos 0 1) cfg3)
          { tail := mkPos 0 1, config := cfg3, snapshot := [7] }
        events := common0.events ++ [Event.snapshotLoaded (mkPos 0 1) [7]] } :=
  ⟨by decide,
    (handle_log_snapshot_loaded_spec common0
      { tail := mkPos 0 1, config := cfg3, snapshot := [7] }).1 (by decide)⟩

/-- C2: a higher-term message is ignored (result `Handled(None)`, state
untouched, ballot and role unchanged) when the local node is following
someone (`voted_for ≠ self`) other than the sender. -/
theorem handle_message_disruptive_ignored (c : Common) (m : Message)
    (hterm : c.local_node.ballot.term < m.header.term)
    (h1 : c.local_node.ballot.voted_for ≠ c.local_node.id)
    (h2 : c.local_node.ballot.voted_for ≠ m.header.sender) :
    handle_message c m = (c, HandleMessageResult.handled none) := by
  unfold handle_message
  by_cases hg : c.local_node.role = Role.leader ∧
      is_known_node c.history.config m.header.sender = false
  · simp [hg]
  · rw [if_neg hg]
    unfold handle_message_after_guard
    rw [if_pos hterm, if_pos ⟨h1, h2⟩]

/-- Witness for C2: a follower of node 1 ignores a higher-term request
from node 2. -/
theorem handle_message_disruptive_ignored_witness :
    common0.local_node.ballot.term <
        (Message.requestVoteCall { sender := 2, term := 4, seq_no := 0 }
          (mkPos 0 0)).header.term ∧
    handle_message common0
        (Message.requestVoteCall { sender := 2, term := 4, seq_no := 0 } (mkPos 0 0)) =
      (common0, HandleMessageResult.handled none) :=
  ⟨by decide,
    handle_message_disruptive_ignored common0
      (Message.requestVoteCall { sender := 2, term := 4, seq_no := 0 } (mkPos 0 0))
      (by decide) (by decide) (by decide)⟩

/-- C5: a Leader drops messages from senders outside the current
configuration, unconditionally in the message's term; a non-Leader never
takes this guard and proceeds to the term cascade. -/
theorem handle_message_unknown_sender_guard (c : Common) (m : Message) :
    (c.local_node.role = Role.leader →
      is_known_node c.history.config m.header.sender = false →
      handle_message c m = (c, HandleMessageResult.handled none))
    ∧ (c.local_node.role ≠ Role.leader →
      handle_message c m = handle_message_after_guard c m) := by
  constructor
  · intro hr hk
    simp [handle_message, hr, hk]
  · intro hr
    simp [handle_message, hr]

/-- Witness for C5: a leader drops a higher-term message from unknown
node 9; a follower does not take the guard. -/
theorem handle_message_unknown_sender_guard_witness :
    ({ common0 with
        local_node := { common0.local_node with role := Role.leader } } : Common).local_node.role
        = Role.leader ∧
    handle_message
        { common0 with local_node := { common0.local_node with role := Role.leader } }
        (Message.requestVoteCall { sender := 9, term := 99, seq_no := 0 } (mkPos 0 0)) =
      ({ common0 with local_node := { common0.local_node with role := Role.leader } },
        HandleMessageResult.handled none) :=
  ⟨rfl,
    (handle_message_unknown_sender_guard
      { common0 with local_node := { common0.local_node with role := Role.leader } }
      (Message.requestVoteCall { sender := 9, term := 99, seq_no := 0 } (mkPos 0 0))).1
      rfl (by decide)⟩

/-- C1: a higher-term `RequestVoteCall` passing the guards adopts the
sender's term and, when the candidate's log tail is newer than or equal to
the local tail, stashes the message, transitions to Follower voting for
the sender and returns `Handled(Some(Follower))`; otherwise it transitions
to Candidate with ballot `{adopted term + 1, voted_for = self}`. -/
theorem handle_message_higher_term_requestVote (c : Common) (h : MessageHeader)
    (log_tail : LogPosition)
    (hterm : c.local_node.ballot.term < h.term)
    (hguard1 : ¬ (c.local_node.role = Role.leader ∧
      is_known_node c.history.config h.sender = false))
    (hguard2 : ¬ (c.local_node.ballot.voted_for ≠ c.local_node.id ∧
      c.local_node.ballot.voted_for ≠ h.sender)) :
    (is_newer_or_equal_than log_tail c.history.tail →
      (handle_message c (Message.requestVoteCall h log_tail)).2 =
          HandleMessageResult.handled (some Role.follower)
      ∧ (handle_message c (Message.requestVoteCall h log_tail)).1.local_node.ballot =
          { term := h.term, voted_for := h.sender }
      ∧ (handle_message c (Message.requestVoteCall h log_tail)).1.local_node.role =
          Role.follower
      ∧ (handle_message c (Message.requestVoteCall h log_tail)).1.unread_message =
          some (Message.requestVoteCall h log_tail))
    ∧ (¬ is_newer_or_equal_than log_tail c.history.tail →
      (handle_message c (Message.requestVoteCall h log_tail)).2 =
          HandleMessageResult.handled (some Role.candidate)
      ∧ (handle_message c (Message.requestVoteCall h log_tail)).1.local_node.ballot =
          { term := h.term + 1, voted_for := c.local_node.id }
      ∧ (handle_message c (Message.requestVoteCall h log_tail)).1.local_node.role =
          Role.candidate) := by
  have hred : handle_message c (Message.requestVoteCall h log_tail) =
      (if is_newer_or_equal_than log_tail c.history.tail then
        (let c2 :=
          { c with
            local_node :=
              { c.local_node with
                ballot := { c.local_node.ballot with term := h.term } }
            unread_message := some (Message.requestVoteCall h log_tail) }
        let r := transit_to_follower c2 h.sender
        (r.1, HandleMessageResult.handled (some r.2)))
      else
        (let c1 :=
          { c with
            local_node :=
              { c.local_node with
                ballot := { c.local_node.ballot with term := h.term } } }
        let r := transit_to_candidate c1
        (r.1, HandleMessageResult.handled (some r.2)))) := by
    unfold handle_message
    simp only [Message.header]
    rw [if_neg hguard1]
    unfold handle_message_after_guard
    simp only [Message.header, gt_iff_lt]
    rw [if_pos hterm, if_neg hguard2]
  constructor
  · intro hn
    rw [hred, if_pos hn]
    refine ⟨rfl, ?_, ?_, ?_⟩ <;> simp
  · intro hn
    rw [hred, if_neg hn]
    refine ⟨rfl, ?_, ?_⟩ <;> simp

/-- Witness for C1: both branches at concrete states; the up-to-date
branch at a fresh log, the stale branch against a longer local log. -/
theorem handle_message_higher_term_requestVote_witness :
    is_newer_or_equal_than (mkPos 0 2) common0.history.tail ∧
    (handle_message common0
        (Message.requestVoteCall { sender := 1, term := 4, seq_no := 0 }
          (mkPos 0 2))).1.local_node.ballot = { term := 4, voted_for := 1 } ∧
    (handle_message common0
        (Message.requestVoteCall { sender := 1, term := 4, seq_no := 0 }
          (mkPos 0 2))).1.local_node.role = Role.follower :=
  ⟨by decide,
    ((handle_message_higher_term_requestVote common0
      { sender := 1, term := 4, seq_no := 0 } (mkPos 0 2)
      (by decide) (by decide) (by decide)).1 (by decide)).2.1,
    ((handle_message_higher_term_requestVote common0
      { sender := 1, term := 4, seq_no := 0 } (mkPos 0 2)
      (by decide) (by decide) (by decide)).1 (by decide)).2.2.1⟩

/-- A leader (node 0) at term 9. -/
def commonLeader9 : Common :=
  { common0 with
    local_node := { id := 0, role := Role.leader, ballot := { term := 9, voted_for := 0 } } }

/-- A committed suffix whose first entry is a matching retirement and
whose final entry is a no-op. -/
def sfx10 : LogSuffix :=
  { head := mkPos 0 0, entries := [LogEntry.retire 9 2, LogEntry.noop 9] }

/-- C8: consuming a committed `Retire{term, successor}` entry at the local
term makes a Leader broadcast an empty AppendEntries (a non-leader sends
nothing), then transitions to Candidate when the local node is the
successor, else to Follower of the successor; a term mismatch produces no
transition and no state change. -/
theorem handle_retirement_spec (c : Common) (t s : Nat) :
    (c.local_node.ballot.term = t →
      ((c.local_node.role = Role.leader →
        (handle_retirement c (LogEntry.retire t s)).1.sent =
          c.sent ++ [IoAction.broadcastAppendEntries { head := c.history.tail, entries := [] }])
      ∧ (c.local_node.role ≠ Role.leader →
        (handle_retirement c (LogEntry.retire t s)).1.sent = c.sent)
      ∧ (c.local_node.id = s →
        (handle_retirement c (LogEntry.retire t s)).2 = some Role.candidate
        ∧ (handle_retirement c (LogEntry.retire t s)).1.local_node.role = Role.candidate)
      ∧ (c.local_node.id ≠ s →
        (handle_retirement c (LogEntry.retire t s)).2 = some Role.follower
        ∧ (handle_retirement c (LogEntry.retire t s)).1.local_node.role = Role.follower
        ∧ (handle_retirement c (LogEntry.retire t s)).1.local_node.ballot.voted_for = s)))
    ∧ (c.local_node.ballot.term ≠ t →
      handle_retirement c (LogEntry.retire t s) = (c, none)) := by
  constructor
  · intro hterm
    refine ⟨?_, ?_, ?_, ?_⟩
    · intro hr
      by_cases hid : c.local_node.id = s <;>
        simp [handle_retirement, hterm, hr, hid, broadcast_append_entries]
    · intro hr
      by_cases hid : c.local_node.id = s <;>
        simp [handle_retirement, hterm, hr, hid]
    · intro hid
      by_cases hr : c.local_node.role = Role.leader <;>
        simp [handle_retirement, hterm, hr, hid, broadcast_append_entries]
    · intro hid
      by_cases hr : c.local_node.role = Role.leader <;>
        simp [handle_retirement, hterm, hr, hid, broadcast_append_entries]
  · intro hne
    simp [handle_retirement, hne]

/-- Witness for C8: a leader at term 9 consumes `Retire{9, 2}`, broadcasts
an empty AppendEntries and transitions to Follower of node 2. -/
theorem handle_retirement_spec_witness :
    commonLeader9.local_node.ballot.term = 9 ∧
    (handle_retirement commonLeader9 (LogEntry.retire 9 2)).1.sent =
      commonLeader9.sent ++
        [IoAction.broadcastAppendEntries { head := commonLeader9.history.tail, entries := [] }] ∧
    (handle_retirement commonLeader9 (LogEntry.retire 9 2)).2 = some Role.follower :=
  ⟨rfl,
    ((handle_retirement_spec commonLeader9 9 2).1 rfl).1 rfl,
    (((handle_retirement_spec commonLeader9 9 2).1 rfl).2.2.2 (by decide)).1⟩

/-- C10: the next role state returned by `handle_committed` is exactly the
retirement evaluation of the suffix's final entry in the threaded state;
in particular a non-retirement final entry yields `None` even when an
earlier entry of the suffix was a matching retirement whose side effects
were already applied. -/
theorem handle_committed_last_entry (c : Common) (suffix : LogSuffix)
    (es : List LogEntry) (e : LogEntry) (hsplit : suffix.entries = es ++ [e]) :
    (handle_committed c suffix).2 =
      (handle_retirement (es.foldl commit_step (c, none, suffix.head.index)).1 e).2
    ∧ ((∀ t s, e ≠ LogEntry.retire t s) → (handle_committed c suffix).2 = none) := by
  have key : (handle_committed c suffix).2 =
      (handle_retirement (es.foldl commit_step (c, none, suffix.head.index)).1 e).2 := by
    show (suffix.entries.foldl commit_step (c, none, suffix.head.index)).2.1 = _
    rw [hsplit, List.foldl_append]
    rfl
  refine ⟨key, fun hne => ?_⟩
  rw [key]
  cases e with
  | noop t => rfl
  | command t d => rfl
  | config t ms => rfl
  | retire t s => exact absurd rfl (hne t s)

/-- Witness for C10: the suffix `[Retire{9,2}, Noop{9}]` at a leader whose
term matches: the retirement's side effects land (the node ends up a
Follower) yet the returned next state is `None` because the final entry is
the no-op. -/
theorem handle_committed_last_entry_witness :
    sfx10.entries = [LogEntry.retire 9 2] ++ [LogEntry.noop 9] ∧
    (handle_committed commonLeader9 sfx10).1.local_node.role = Role.follower ∧
    (handle_committed commonLeader9 sfx10).2 = none :=
  ⟨rfl, by decide,
    (handle_committed_last_entry commonLeader9 sfx10 [LogEntry.retire 9 2]
      (LogEntry.noop 9) rfl).2 (fun t s h => LogEntry.noConfusion h)⟩

/-- Whether an event is a `TermChanged` event. -/
def isTermChangedEvent : Event → Bool
  | Event.termChanged _ => true
  | _ => false

@[simp]
theorem isTermChangedEvent_termChanged (b : Ballot) :
    isTermChangedEvent (Event.termChanged b) = true := rfl

@[simp]
theorem isTermChangedEvent_roleChanged (r : Role) :
    isTermChangedEvent (Event.roleChanged r) = false := rfl

theorem filter_tc_transit_to_follower (c : Common) (f : Nat) :
    ((transit_to_follower c f).1.events.filter isTermChangedEvent) =
      c.events.filter isTermChangedEvent ++
        (if c.local_node.ballot =
            ({ term := c.local_node.ballot.term, voted_for := f } : Ballot) then []
         else [Event.termChanged
            ({ term := c.local_node.ballot.term, voted_for := f } : Ballot)]) := by
  rw [show (transit_to_follower c f).1 =
      set_role (set_ballot c { term := c.local_node.ballot.term, voted_for := f })
        Role.follower from rfl]
  rw [set_role_events, set_ballot_events]
  simp [List.filter_append, apply_ite (List.filter isTermChangedEvent)]

theorem filter_tc_transit_to_candidate (c : Common) :
    ((transit_to_candidate c).1.events.filter isTermChangedEvent) =
      c.events.filter isTermChangedEvent ++
        [Event.termChanged
          ({ term := c.local_node.ballot.term + 1, voted_for := c.local_node.id } : Ballot)] := by
  have hb : ¬ c.local_node.ballot =
      ({ term := c.local_node.ballot.term + 1, voted_for := c.local_node.id } : Ballot) := by
    intro h
    have := congrArg Ballot.term h
    simp at this
  rw [show (transit_to_candidate c).1 =
      set_role (set_ballot c
        { term := c.local_node.ballot.term + 1, voted_for := c.local_node.id })
        Role.candidate from rfl]
  rw [set_role_events, set_ballot_events]
  simp [List.filter_append, apply_ite (List.filter isTermChangedEvent), hb]

/-- C3 (counterexample): a follower of node 1 at term 3 receives an
AppendEntries from node 1 at term 4; `handle_message` raises the local
term to 4 but enqueues no `TermChanged` event at all, because the ballot
as a whole (`{4, voted_for=1}`) is what the follower transition re-sets. -/
def msgAE : Message :=
  Message.appendEntriesCall { sender := 1, term := 4, seq_no := 0 }
    { head := mkPos 0 2, entries := [] }

/-- C3 is false as stated: the local term changes from 3 to 4 yet the
event queue stays empty (no `TermChanged` is enqueued). -/
theorem handle_message_termChanged_counterexample :
    common0.local_node.ballot.term = 3 ∧
    (handle_message common0 msgAE).1.local_node.ballot.term = 4 ∧
    (handle_message common0 msgAE).1.events = [] :=
  ⟨rfl, rfl, rfl⟩

/-- C3 (amended): on a higher-term message passing the guards,
`handle_message` enqueues exactly one `TermChanged` carrying the new
ballot, except when the resulting ballot equals the old ballot with only
its term replaced by the message's term (possible when the sender is
already the voted-for node), in which case no `TermChanged` is enqueued
although the term changed. -/
theorem handle_message_termChanged_amended (c : Common) (m : Message)
    (hterm : c.local_node.ballot.term < m.header.term)
    (hguard1 : ¬ (c.local_node.role = Role.leader ∧
      is_known_node c.history.config m.header.sender = false))
    (hguard2 : ¬ (c.local_node.ballot.voted_for ≠ c.local_node.id ∧
      c.local_node.ballot.voted_for ≠ m.header.sender)) :
    ((handle_message c m).1.events.filter isTermChangedEvent) =
      (c.events.filter isTermChangedEvent) ++
        (if (handle_message c m).1.local_node.ballot =
            { c.local_node.ballot with term := m.header.term } then []
         else [Event.termChanged (handle_message c m).1.local_node.ballot]) := by
  unfold handle_message
  rw [if_neg hguard1]
  unfold handle_message_after_guard
  rw [if_pos hterm, if_neg hguard2]
  cases m with
  | requestVoteCall h lt =>
      simp only [Message.header]
      by_cases hn : is_newer_or_equal_than lt c.history.tail <;>
        by_cases hv : c.local_node.ballot.voted_for = h.sender <;>
          simp [hn, hv, filter_tc_transit_to_follower, filter_tc_transit_to_candidate,
            Ballot.mk.injEq, eq_comm]
  | appendEntriesCall h s =>
      simp only [Message.header]
      by_cases hv : c.local_node.ballot.voted_for = h.sender <;>
        simp [hv, filter_tc_transit_to_follower, Ballot.mk.injEq, eq_comm]
  | requestVoteReply h v =>
      simp only [Message.header]
      by_cases hr : c.local_node.role = Role.leader <;>
        by_cases hv : c.local_node.ballot.voted_for = c.local_node.id <;>
          simp [hr, hv, filter_tc_transit_to_follower, filter_tc_transit_to_candidate,
            Ballot.mk.injEq, eq_comm]
  | appendEntriesReply h lt =>
      simp only [Message.header]
      by_cases hr : c.local_node.role = Role.leader <;>
        by_cases hv : c.local_node.ballot.voted_for = c.local_node.id <;>
          simp [hr, hv, filter_tc_transit_to_follower, filter_tc_transit_to_candidate,
            Ballot.mk.injEq, eq_comm]

/-- Witness for the amended C3 at the counterexample input: the guards
pass, the term changes, and the no-`TermChanged` branch of the amended
statement is the one realized. -/
theorem handle_message_termChanged_amended_witness :
    common0.local_node.ballot.term < msgAE.header.term ∧
    ((handle_message common0 msgAE).1.events.filter isTermChangedEvent) =
      (common0.events.filter isTermChangedEvent) ++
        (if (handle_message common0 msgAE).1.local_node.ballot =
            { common0.local_node.ballot with term := msgAE.header.term } then []
         else [Event.termChanged (handle_message common0 msgAE).1.local_node.ballot]) :=
  ⟨by decide,
    handle_message_termChanged_amended common0 msgAE (by decide) (by decide) (by decide)⟩

end Raftlog
